import Mathlib

/-!
Verification of the command-state engine of `agent.py`.

The source keeps three pieces of module-level mutable state:
`arm_state` (a dict of Cartesian offsets `x`, `y`, `z`), `json_commands`
(a list of structured records) and `python_commands` (a list of
executable-text lines).  The three dispatcher functions
`move_cartesian`, `rotate_joint` and `control_gripper` each update this
state; `write_json_file` and `write_python_file` serialize the two
lists.  We embed the program as a pure state machine: the global state
becomes a structure `AgentState`, each dispatcher function becomes a
state transformer, and the exports become functions from state to the
written content.  Python floats are modelled as rationals; the one
genuinely real-valued quantity (the radian value computed by
`math.radians` and interpolated into the joint-rotation line) is
recovered by the interpretation `PyCmd.positionValue` into `ℝ`.
-/

/-- The dict `arm_state = {"x": 0.0, "y": 0.0, "z": 0.0}` holding the
robot position in Cartesian space (`agent.py` lines 22-26). -/
structure ArmState where
  x : ℚ
  y : ℚ
  z : ℚ
deriving DecidableEq, Repr

/-- One entry of `json_commands`: the dict appended by each dispatcher
function, discriminated by its `"type"` field
(`cartesian_move` / `rotate_joint` / `gripper`). -/
inductive JsonCommand where
  | cartesian_move (x y z : ℚ)
  | rotate_joint (joint_name : String) (degrees : ℚ)
  | gripper (action : String)
deriving DecidableEq, Repr

/-- One entry of `python_commands`.  A
`bot.arm.set_ee_cartesian_trajectory(x=..., y=..., z=...)` line carries
the three absolute coordinates; a
`bot.arm.set_single_joint_position(joint_name=..., position=...)` line
carries the joint name and the degree value from which its `position`
field was computed by `math.radians` (see `PyCmd.positionValue`); a
gripper line is carried verbatim as the string built by the f-string
`f"bot.gripper.\x7baction\x7d()"`. -/
inductive PyCmd where
  | set_ee_cartesian_trajectory (x y z : ℚ)
  | set_single_joint_position (joint_name : String) (degrees : ℚ)
  | gripper (line : String)
deriving DecidableEq, Repr

/-- The numeric `position=` value encoded in a
`set_single_joint_position` line: `math.radians(degrees)`, i.e.
`degrees * pi / 180` (`agent.py` line 52). -/
noncomputable def PyCmd.positionValue : PyCmd → Option ℝ
  | .set_single_joint_position _ d => some ((d : ℝ) * Real.pi / 180)
  | _ => none

/-- The whole module-level mutable state of `agent.py`. -/
structure AgentState where
  arm_state : ArmState
  json_commands : List JsonCommand
  python_commands : List PyCmd
deriving DecidableEq, Repr

/-- `move_cartesian` (`agent.py` lines 31-48): adds the deltas to
`arm_state`, then appends a record holding the resulting absolute
position to each list. -/
def move_cartesian (x y z : ℚ) (s : AgentState) : AgentState :=
  let ax := s.arm_state.x + x
  let ay := s.arm_state.y + y
  let az := s.arm_state.z + z
  { arm_state := ⟨ax, ay, az⟩
    json_commands := s.json_commands ++ [.cartesian_move ax ay az]
    python_commands := s.python_commands ++ [.set_ee_cartesian_trajectory ax ay az] }

/-- `rotate_joint` (`agent.py` lines 51-64): appends a structured record
holding the original degree value, and an executable line whose
`position` field is the radian conversion. -/
def rotate_joint (joint_name : String) (degrees : ℚ) (s : AgentState) : AgentState :=
  { s with
    json_commands := s.json_commands ++ [.rotate_joint joint_name degrees]
    python_commands := s.python_commands ++ [.set_single_joint_position joint_name degrees] }

/-- The Python method `str.lower()`: lower-case every character. -/
def pyLower (s : String) : String := ⟨s.data.map Char.toLower⟩

/-- `control_gripper` (`agent.py` lines 67-78): appends a structured
record holding `action.lower()`, and the executable line
`f"bot.gripper.\x7baction\x7d()"` built from the original string. -/
def control_gripper (action : String) (s : AgentState) : AgentState :=
  { s with
    json_commands := s.json_commands ++ [.gripper (pyLower action)]
    python_commands := s.python_commands ++ [.gripper ("bot.gripper." ++ action ++ "()")] }

/-- One dispatcher invocation, as selected by the external agent. -/
inductive Call where
  | move (x y z : ℚ)
  | rotate (joint_name : String) (degrees : ℚ)
  | grip (action : String)
deriving DecidableEq, Repr

/-- Dispatch one call to the corresponding function. -/
def step (s : AgentState) : Call → AgentState
  | .move x y z => move_cartesian x y z s
  | .rotate j d => rotate_joint j d s
  | .grip a => control_gripper a s

/-- The module state right after `agent.py` initializes its globals:
all-zero position, both lists empty. -/
def initState : AgentState := ⟨⟨0, 0, 0⟩, [], []⟩

/-- Run a session: a sequence of dispatcher calls from the initial
state. -/
def runCalls (cs : List Call) : AgentState := cs.foldl step initState

/-- The content of the generated Python file: the fixed preamble lines
followed by one line per entry of `python_commands`. -/
structure PyFile where
  preambleLines : List String
  commandLines : List PyCmd
deriving DecidableEq, Repr

/-- The fixed runtime-initialization preamble written by
`write_python_file` (`agent.py` lines 122-127): import plus
construction of the `InterbotixManipulatorXS` handle with the fixed
robot model, arm group and gripper names. -/
def pythonPreamble : List String :=
  [ "from interbotix_xs_modules.arm import InterbotixManipulatorXS"
  , ""
  , "bot = InterbotixManipulatorXS("
  , "    robot_model=\x27vx300\x27,"
  , "    group_name=\x27arm\x27,"
  , "    gripper_name=\x27gripper\x27"
  , ")"
  , "" ]

/-- `write_json_file` (`agent.py` lines 115-117): dumps `json_commands`
to the destination file.  File I/O is out of scope; the second
component models the serialized content (the ordered record list) and
the first component is the module state after the call, which the
source leaves untouched. -/
def write_json_file (filename : String) (s : AgentState) :
    AgentState × List JsonCommand :=
  (s, s.json_commands)

/-- `write_python_file` (`agent.py` lines 120-129): writes the fixed
preamble, then each command line in order.  As with `write_json_file`,
the second component models the written content, the first the
(unchanged) module state. -/
def write_python_file (filename : String) (s : AgentState) :
    AgentState × PyFile :=
  (s, ⟨pythonPreamble, s.python_commands⟩)

/-- Component-wise sums of a list of Cartesian deltas. -/
def cumX (ds : List (ℚ × ℚ × ℚ)) : ℚ := (ds.map fun d => d.1).sum

/-- See `cumX`. -/
def cumY (ds : List (ℚ × ℚ × ℚ)) : ℚ := (ds.map fun d => d.2.1).sum

/-- See `cumX`. -/
def cumZ (ds : List (ℚ × ℚ × ℚ)) : ℚ := (ds.map fun d => d.2.2).sum

/-- A session consisting only of `move_cartesian` calls with the given
deltas. -/
def movesOf (ds : List (ℚ × ℚ × ℚ)) : List Call :=
  ds.map fun d => .move d.1 d.2.1 d.2.2

/-- The structured records produced by a run of Cartesian moves
starting at position `p`: each record holds the absolute position
reached so far. -/
def recordsFrom (p : ArmState) : List (ℚ × ℚ × ℚ) → List JsonCommand
  | [] => []
  | d :: rest =>
      .cartesian_move (p.x + d.1) (p.y + d.2.1) (p.z + d.2.2) ::
        recordsFrom ⟨p.x + d.1, p.y + d.2.1, p.z + d.2.2⟩ rest

lemma foldl_movesOf_json (ds : List (ℚ × ℚ × ℚ)) (s : AgentState) :
    (List.foldl step s (movesOf ds)).json_commands =
      s.json_commands ++ recordsFrom s.arm_state ds := by
  induction ds generalizing s with
  | nil => simp [movesOf, recordsFrom]
  | cons d rest ih =>
      simp only [movesOf, List.map_cons, List.foldl_cons, step] at *
      rw [ih]
      simp [move_cartesian, recordsFrom]

lemma foldl_movesOf_arm (ds : List (ℚ × ℚ × ℚ)) (s : AgentState) :
    (List.foldl step s (movesOf ds)).arm_state =
      ⟨s.arm_state.x + cumX ds, s.arm_state.y + cumY ds,
        s.arm_state.z + cumZ ds⟩ := by
  induction ds generalizing s with
  | nil => simp [movesOf, cumX, cumY, cumZ]
  | cons d rest ih =>
      simp only [movesOf, List.map_cons, List.foldl_cons, step] at *
      rw [ih]
      simp [move_cartesian, cumX, cumY, cumZ, add_assoc]

lemma recordsFrom_getElem? (ds : List (ℚ × ℚ × ℚ)) (p : ArmState) (i : ℕ)
    (h : i < ds.length) :
    (recordsFrom p ds)[i]? =
      some (.cartesian_move (p.x + cumX (ds.take (i + 1)))
        (p.y + cumY (ds.take (i + 1))) (p.z + cumZ (ds.take (i + 1)))) := by
  induction ds generalizing p i with
  | nil => simp at h
  | cons d rest ih =>
      cases i with
      | zero => simp [recordsFrom, cumX, cumY, cumZ]
      | succ n =>
          have hn : n < rest.length := by simpa using h
          simp only [recordsFrom, List.getElem?_cons_succ]
          rw [ih _ _ hn]
          simp [cumX, cumY, cumZ, add_assoc]

lemma step_json_length (s : AgentState) (c : Call) :
    (step s c).json_commands.length = s.json_commands.length + 1 := by
  cases c <;> simp [step, move_cartesian, rotate_joint, control_gripper]

lemma step_python_length (s : AgentState) (c : Call) :
    (step s c).python_commands.length = s.python_commands.length + 1 := by
  cases c <;> simp [step, move_cartesian, rotate_joint, control_gripper]

lemma foldl_step_lengths (cs : List Call) (s : AgentState) :
    (List.foldl step s cs).json_commands.length =
      s.json_commands.length + cs.length ∧
    (List.foldl step s cs).python_commands.length =
      s.python_commands.length + cs.length := by
  induction cs generalizing s with
  | nil => simp
  | cons c rest ih =>
      simp only [List.foldl_cons, List.length_cons]
      obtain ⟨h1, h2⟩ := ih (step s c)
      rw [h1, h2, step_json_length, step_python_length]
      omega

/-- The example session of §8 of the spec: the seven dispatcher calls
the external agent issues for the sample user input. -/
def scenarioCalls : List Call :=
  [.move 0 0 5, .move 0 10 0, .move 0 0 (-5), .grip "close",
   .move 0 0 5, .rotate "waist" 180, .grip "Open"]

/-- C1: starting from the all-zero initial state, after a sequence of
`move_cartesian` calls with deltas `ds`, the `i`-th structured record
holds the component-wise sum of the first `i + 1` deltas, and the arm
state after the `i`-th call equals that same sum. -/
theorem move_sequence_prefix_sums (ds : List (ℚ × ℚ × ℚ)) (i : ℕ)
    (h : i < ds.length) :
    (runCalls (movesOf ds)).json_commands[i]? =
      some (.cartesian_move (cumX (ds.take (i + 1))) (cumY (ds.take (i + 1)))
        (cumZ (ds.take (i + 1)))) ∧
    (runCalls (movesOf (ds.take (i + 1)))).arm_state =
      ⟨cumX (ds.take (i + 1)), cumY (ds.take (i + 1)), cumZ (ds.take (i + 1))⟩ := by
  constructor
  · rw [runCalls, foldl_movesOf_json]
    show (recordsFrom initState.arm_state ds)[i]? = _
    rw [recordsFrom_getElem? ds initState.arm_state i h]
    simp [initState]
  · rw [runCalls, foldl_movesOf_arm]
    simp [initState]

/-- Witness for C1 at the concrete delta sequence
`[(1, 2, 3), (4, 5, 6)]` and index `i = 1`. -/
theorem move_sequence_prefix_sums_witness :
    1 < ([((1 : ℚ), (2 : ℚ), (3 : ℚ)), (4, 5, 6)] : List (ℚ × ℚ × ℚ)).length ∧
    ((runCalls (movesOf [((1 : ℚ), (2 : ℚ), (3 : ℚ)), (4, 5, 6)])).json_commands[1]? =
      some (.cartesian_move
        (cumX ([((1 : ℚ), (2 : ℚ), (3 : ℚ)), (4, 5, 6)].take 2))
        (cumY ([((1 : ℚ), (2 : ℚ), (3 : ℚ)), (4, 5, 6)].take 2))
        (cumZ ([((1 : ℚ), (2 : ℚ), (3 : ℚ)), (4, 5, 6)].take 2))) ∧
    (runCalls (movesOf ([((1 : ℚ), (2 : ℚ), (3 : ℚ)), (4, 5, 6)].take 2))).arm_state =
      ⟨cumX ([((1 : ℚ), (2 : ℚ), (3 : ℚ)), (4, 5, 6)].take 2),
        cumY ([((1 : ℚ), (2 : ℚ), (3 : ℚ)), (4, 5, 6)].take 2),
        cumZ ([((1 : ℚ), (2 : ℚ), (3 : ℚ)), (4, 5, 6)].take 2)⟩) :=
  ⟨by decide, move_sequence_prefix_sums _ 1 (by decide)⟩

/-- C2: each dispatcher call appends exactly one element to each output
sequence, so after any sequence of calls both sequences have length
equal to the number of calls (hence always equal length, index-aligned
in invocation order). -/
theorem dispatcher_parallel_append :
    (∀ (s : AgentState) (c : Call), ∃ (j : JsonCommand) (p : PyCmd),
      (step s c).json_commands = s.json_commands ++ [j] ∧
      (step s c).python_commands = s.python_commands ++ [p]) ∧
    ∀ cs : List Call,
      (runCalls cs).json_commands.length = cs.length ∧
      (runCalls cs).python_commands.length = cs.length := by
  constructor
  · intro s c
    cases c with
    | move x y z => exact ⟨_, _, rfl, rfl⟩
    | rotate j d => exact ⟨_, _, rfl, rfl⟩
    | grip a => exact ⟨_, _, rfl, rfl⟩
  · intro cs
    simpa [runCalls, initState] using foldl_step_lengths cs initState

/-- C3: `rotate_joint` stores the original degree value in the
structured record, while the `position` field of the executable line is
the radian conversion `degrees * pi / 180`. -/
theorem rotate_joint_units (joint_name : String) (d : ℚ) (s : AgentState) :
    (rotate_joint joint_name d s).json_commands =
      s.json_commands ++ [.rotate_joint joint_name d] ∧
    (rotate_joint joint_name d s).python_commands =
      s.python_commands ++ [.set_single_joint_position joint_name d] ∧
    PyCmd.positionValue (.set_single_joint_position joint_name d) =
      some ((d : ℝ) * Real.pi / 180) :=
  ⟨rfl, rfl, rfl⟩

/-- C4: `control_gripper` stores the lower-cased action in the
structured record, but the executable line uses the original casing
supplied by the caller. -/
theorem control_gripper_casing (action : String) (s : AgentState) :
    (control_gripper action s).json_commands =
      s.json_commands ++ [.gripper (pyLower action)] ∧
    (control_gripper action s).python_commands =
      s.python_commands ++ [.gripper ("bot.gripper." ++ action ++ "()")] :=
  ⟨rfl, rfl⟩

/-- C5: the seven-call scenario yields exactly the expected structured
records, seven executable lines with the matching absolute coordinates,
a radian value of `pi` for the rotation, and gripper invocations
`close()` and `Open()`. -/
theorem scenario_trace :
    (runCalls scenarioCalls).json_commands =
      [.cartesian_move 0 0 5, .cartesian_move 0 10 5, .cartesian_move 0 10 0,
       .gripper "close", .cartesian_move 0 10 5, .rotate_joint "waist" 180,
       .gripper "open"] ∧
    (runCalls scenarioCalls).python_commands =
      [.set_ee_cartesian_trajectory 0 0 5, .set_ee_cartesian_trajectory 0 10 5,
       .set_ee_cartesian_trajectory 0 10 0, .gripper "bot.gripper.close()",
       .set_ee_cartesian_trajectory 0 10 5,
       .set_single_joint_position "waist" 180,
       .gripper "bot.gripper.Open()"] ∧
    (runCalls scenarioCalls).python_commands.length = 7 ∧
    PyCmd.positionValue (.set_single_joint_position "waist" 180) =
      some Real.pi := by
  refine ⟨?_, ?_, ?_, ?_⟩
  · norm_num [runCalls, step, move_cartesian, control_gripper, rotate_joint,
      scenarioCalls, initState]
    exact ⟨by decide, by decide⟩
  · norm_num [runCalls, step, move_cartesian, control_gripper, rotate_joint,
      scenarioCalls, initState]
    exact ⟨by decide, by decide⟩
  · rfl
  · simp only [PyCmd.positionValue, Option.some.injEq]
    push_cast
    ring

/-- C6: `rotate_joint` and `control_gripper` leave the arm state
unchanged for any arguments and from any state; `move_cartesian` only
adds its deltas (it never resets the state). -/
theorem arm_state_frame (joint_name : String) (d : ℚ) (a : String)
    (x y z : ℚ) (s : AgentState) :
    (rotate_joint joint_name d s).arm_state = s.arm_state ∧
    (control_gripper a s).arm_state = s.arm_state ∧
    (move_cartesian x y z s).arm_state =
      ⟨s.arm_state.x + x, s.arm_state.y + y, s.arm_state.z + z⟩ :=
  ⟨rfl, rfl, rfl⟩

/-- C7: both exports leave the whole module state (arm state and both
command sequences) unchanged, and exporting twice with the same
destination and no intervening recorder calls produces identical
content both times. -/
theorem export_idempotent (filename : String) (s : AgentState) :
    (write_json_file filename s).1 = s ∧
    (write_python_file filename s).1 = s ∧
    (write_json_file filename (write_json_file filename s).1).2 =
      (write_json_file filename s).2 ∧
    (write_python_file filename (write_python_file filename s).1).2 =
      (write_python_file filename s).2 :=
  ⟨rfl, rfl, rfl, rfl⟩

/-- Witness for C7 at a concrete state and destination. -/
theorem export_idempotent_witness :
    (write_json_file "generated_json_commands.json" initState).1 = initState ∧
    (write_python_file "generated_json_commands.json" initState).1 = initState ∧
    (write_json_file "generated_json_commands.json"
        (write_json_file "generated_json_commands.json" initState).1).2 =
      (write_json_file "generated_json_commands.json" initState).2 ∧
    (write_python_file "generated_json_commands.json"
        (write_python_file "generated_json_commands.json" initState).1).2 =
      (write_python_file "generated_json_commands.json" initState).2 :=
  export_idempotent "generated_json_commands.json" initState

/-- C8: with zero dispatcher calls, the structured export is the empty
list and the executable export holds only the fixed preamble and no
invocation lines; the preamble never depends on the session state. -/
theorem export_empty_session :
    (write_json_file "generated_json_commands.json" (runCalls [])).2 = [] ∧
    (write_python_file "generated_python_commands.py" (runCalls [])).2 =
      ⟨pythonPreamble, []⟩ ∧
    ∀ (f : String) (s : AgentState),
      (write_python_file f s).2.preambleLines = pythonPreamble :=
  ⟨rfl, rfl, fun _ _ => rfl⟩

/-- C9: the three dispatcher operations are total and perform no
validation: for every numeric input (modelled as rationals; the code
applies the same arithmetic to every value, with no finiteness branch)
and every string, including the empty string, each call completes and
records the inputs verbatim into state and output. -/
theorem dispatcher_total_no_validation (x y z d : ℚ) (j a : String)
    (s : AgentState) :
    move_cartesian x y z s =
      ⟨⟨s.arm_state.x + x, s.arm_state.y + y, s.arm_state.z + z⟩,
        s.json_commands ++ [.cartesian_move (s.arm_state.x + x)
          (s.arm_state.y + y) (s.arm_state.z + z)],
        s.python_commands ++ [.set_ee_cartesian_trajectory (s.arm_state.x + x)
          (s.arm_state.y + y) (s.arm_state.z + z)]⟩ ∧
    rotate_joint j d s =
      ⟨s.arm_state, s.json_commands ++ [.rotate_joint j d],
        s.python_commands ++ [.set_single_joint_position j d]⟩ ∧
    control_gripper a s =
      ⟨s.arm_state, s.json_commands ++ [.gripper (pyLower a)],
        s.python_commands ++ [.gripper ("bot.gripper." ++ a ++ "()")]⟩ :=
  ⟨rfl, rfl, rfl⟩

/-- C10: the executable gripper line is exactly the concatenation
`"bot.gripper." ++ action ++ "()"`, with the action inserted verbatim;
in particular the empty action yields the line `"bot.gripper.()"`. -/
theorem gripper_line_verbatim (action : String) (s : AgentState) :
    (control_gripper action s).python_commands =
      s.python_commands ++ [.gripper ("bot.gripper." ++ action ++ "()")] ∧
    (control_gripper "" s).python_commands =
      s.python_commands ++ [.gripper "bot.gripper.()"] :=
  ⟨rfl, by simp [control_gripper]⟩
